import Mathlib

/-!
Shallow embedding of the resilient API-access layer of FlipLens
(frontend/src/services/api.ts, frontend/src/utils/offlineCache.ts,
frontend/src/hooks/useOfflineDetection.ts), together with theorems about
the claims of the specification.

JavaScript numbers appearing in the modelled code paths are integers or
NaN (timestamps, HTTP statuses, parseInt results), so they are embedded
as `JsNum` (an integer or NaN); cached payloads are either the `null`
literal or an opaque non-null object, embedded as `JsData`.
-/

set_option autoImplicit false

namespace FlipLens

/-- A cached payload: JavaScript `null` or an opaque non-null object
(the payloads stored by the façade are response bodies, i.e. objects). -/
inductive JsData where
  | jsNull
  | payload (id : Nat)
  deriving DecidableEq, Repr

/-- JS truthiness of a cached payload: `null` is falsy, an object is truthy. -/
def JsData.truthy : JsData → Bool
  | .jsNull => false
  | .payload _ => true

/-- A JavaScript number that is either an integer or NaN
(the only numbers reaching the modelled paths are parseInt results). -/
inductive JsNum where
  | nan
  | num (n : Int)
  deriving DecidableEq, Repr

/-- JS `x || d` for a number `x`: NaN and 0 are falsy. -/
def JsNum.orDefault : JsNum → Int → Int
  | .nan, d => d
  | .num n, d => if n = 0 then d else n

/-- The exception kinds the embedding needs (`cleanup` can raise a
TypeError by reading `.timestamp` of a deleted entry). -/
inductive JsError where
  | typeError
  deriving DecidableEq, Repr

/-- Whether `pat` is a prefix of `cs`, on character lists. -/
def startsWithChars : List Char → List Char → Bool
  | [], _ => true
  | _ :: _, [] => false
  | c :: cs, d :: ds => c = d && startsWithChars cs ds

/-- Whether `pat` occurs as a contiguous run inside `cs`. -/
def hasSubChars (pat : List Char) : List Char → Bool
  | [] => pat.isEmpty
  | c :: cs => startsWithChars pat (c :: cs) || hasSubChars pat cs

/-- JS `String.prototype.includes`: `pat` occurs as a substring of `s`. -/
def jsIncludes (s pat : String) : Bool :=
  hasSubChars pat.data s.data

/-- A whitespace character as stripped by `parseInt`. -/
def jsWhitespace (c : Char) : Bool :=
  (9 ≤ c.toNat && c.toNat ≤ 13) || c.toNat = 32

/-- Value of a character as a digit in the given radix, as in `parseInt`. -/
def digitValue (radix : Nat) (c : Char) : Option Nat :=
  let v : Option Nat :=
    if 48 ≤ c.toNat ∧ c.toNat ≤ 57 then some (c.toNat - 48)
    else if 97 ≤ c.toNat ∧ c.toNat ≤ 122 then some (c.toNat - 97 + 10)
    else if 65 ≤ c.toNat ∧ c.toNat ≤ 90 then some (c.toNat - 65 + 10)
    else none
  match v with
  | some d => if d < radix then some d else none
  | none => none

/-- JS `parseInt(s)` with no radix argument: strip whitespace, optional
sign, optional `0x`/`0X` prefix (radix 16), then the longest run of
digits; no digits at all gives NaN. -/
def jsParseInt (s : String) : JsNum :=
  let cs := s.data.dropWhile jsWhitespace
  let signAndRest : Int × List Char :=
    match cs with
    | '+' :: rest => (1, rest)
    | '-' :: rest => (-1, rest)
    | _ => (1, cs)
  let radixAndRest : Nat × List Char :=
    match signAndRest.2 with
    | '0' :: 'x' :: rest => (16, rest)
    | '0' :: 'X' :: rest => (16, rest)
    | _ => (10, signAndRest.2)
  let radix := radixAndRest.1
  let ds := radixAndRest.2.takeWhile (fun c => (digitValue radix c).isSome)
  if ds.isEmpty then JsNum.nan
  else JsNum.num (signAndRest.1 *
    Int.ofNat (ds.foldl (fun acc c => acc * radix + (digitValue radix c).getD 0) 0))

/-- The part of an axios error response that `categorizeError` reads:
HTTP status, the `retry-after` header (absent = `undefined`), and the
optional body fields `message` / `details`. -/
structure RespInfo where
  status : Int
  retryAfterHeader : Option String := none
  bodyMessage : Option String := none
  bodyDetails : Option String := none
  deriving DecidableEq, Repr

/-- The part of an `AxiosError` that `categorizeError` reads. -/
structure AxiosErrorInput where
  code : Option String := none
  message : String := ""
  response : Option RespInfo := none
  deriving DecidableEq, Repr

/-- The `ApiError` union produced by `categorizeError`: the `error` name
identifies the kind; `retryAfter` is present only on rate-limit errors. -/
structure ApiError where
  error : String
  message : String
  code : String
  retryable : Bool
  retryAfter : Option JsNum := none
  details : Option String := none
  timestamp : String := ""
  deriving DecidableEq, Repr

/-- JS `x || d` for an optional string: `undefined` and `""` are falsy. -/
def jsStrOr (x : Option String) (d : String) : String :=
  match x with
  | some s => if s = "" then d else s
  | none => d

/-- `categorizeError` of api.ts: maps a raw axios failure to an `ApiError`. -/
def categorizeError (timestamp : String) (e : AxiosErrorInput) : ApiError :=
  if e.code = some "ECONNABORTED" ∨ jsIncludes e.message "timeout" then
    { error := "TimeoutError"
      message := "Request timed out. Please check your connection and try again."
      code := "TIMEOUT_ERROR", retryable := true, timestamp }
  else
    match e.response with
    | none =>
      { error := "NetworkError"
        message := "Unable to connect to server. Please check your internet connection."
        code := "NETWORK_ERROR", retryable := true, timestamp }
    | some r =>
      if r.status = 400 then
        { error := "ValidationError"
          message := jsStrOr r.bodyMessage "Invalid request. Please check your input and try again."
          code := "VALIDATION_ERROR", retryable := false
          details := r.bodyDetails, timestamp }
      else if r.status = 401 then
        { error := "AuthenticationError"
          message := "Authentication required. Please log in and try again."
          code := "AUTH_ERROR", retryable := false, timestamp }
      else if r.status = 429 then
        { error := "RateLimitError"
          message := "Too many requests. Please wait a moment and try again."
          code := "RATE_LIMIT_ERROR", retryable := true
          retryAfter := some (jsParseInt (jsStrOr r.retryAfterHeader "60"))
          timestamp }
      else if r.status = 500 ∨ r.status = 502 ∨ r.status = 503 ∨ r.status = 504 then
        { error := "ServerError"
          message := "Server error occurred. Please try again later."
          code := "SERVER_ERROR", retryable := true
          details := r.bodyDetails, timestamp }
      else
        { error := "ServerError"
          message := jsStrOr r.bodyMessage
            ("Unexpected error (" ++ toString r.status ++ "). Please try again.")
          code := "SERVER_ERROR", retryable := decide (500 ≤ r.status)
          details := r.bodyDetails, timestamp }

/-- An `ApiError` viewed through the `error as AxiosError` cast in
`retryRequest`'s catch block: `.code` is the ApiError's code string
(never `ECONNABORTED`), `.message` its message, and `.response` is
`undefined` because `ApiError` has no such property. -/
def apiErrorAsAxiosInput (e : ApiError) : AxiosErrorInput :=
  { code := some e.code, message := e.message, response := none }

/-- The classification a failed `apiClient` call receives inside
`retryRequest`: the response interceptor (api.ts:173-180) rejects with
`categorizeError` of the raw axios failure, and `retryRequest`'s catch
then runs `categorizeError` again on that `ApiError` viewed as an
`AxiosError` — a second pass that sees no `response` and (unless the
first error's message happens to contain the substring "timeout")
relabels every failure `NetworkError`. -/
def interceptedFailure (ts : String) (raw : AxiosErrorInput) : ApiError :=
  categorizeError ts (apiErrorAsAxiosInput (categorizeError ts raw))

/-! ### Retry orchestrator (`retryRequest` of api.ts) -/

/-- The `RetryConfig` of types/api.ts (defaults in api.ts: 3 retries,
1000 ms base, multiplier 2, 10000 ms cap). -/
structure RetryConfig where
  maxRetries : Nat
  retryDelay : Int
  backoffMultiplier : Int
  maxRetryDelay : Int
  deriving DecidableEq, Repr

def DEFAULT_RETRY_CONFIG : RetryConfig :=
  { maxRetries := 3, retryDelay := 1000, backoffMultiplier := 2, maxRetryDelay := 10000 }

/-- Outcome of one invocation of the caller-supplied `requestFn`:
either a value or a thrown axios error. -/
inductive AttemptResult (α : Type) where
  | ok (v : α)
  | fail (e : AxiosErrorInput)

/-- Observable trace of one `retryRequest` run: the final result, how
many times `requestFn` was invoked, and the waits (ms) performed
between attempts, in order. -/
structure RetryTrace (α : Type) where
  result : Except ApiError α
  attempts : Nat
  delays : List Int

/-- The wait `retryRequest` performs after failed attempt `attempt`
(0-based) classified as `e`: `retryAfter || 60` seconds for rate-limit
errors, else `min(retryDelay * backoffMultiplier ^ attempt, maxRetryDelay)`. -/
def retryDelayFor (cfg : RetryConfig) (attempt : Nat) (e : ApiError) : Int :=
  if e.code = "RATE_LIMIT_ERROR" then
    (JsNum.orDefault (e.retryAfter.getD JsNum.nan) 60) * 1000
  else
    min (cfg.retryDelay * cfg.backoffMultiplier ^ attempt) cfg.maxRetryDelay

/-- The loop body of `retryRequest`, from attempt number `attempt` with
`remaining = maxRetries - attempt` further attempts allowed; `acc` holds
the waits performed so far, most recent first. -/
def retryFrom {α : Type} (cfg : RetryConfig) (ts : String)
    (reqs : Nat → AttemptResult α) :
    Nat → Nat → List Int → RetryTrace α
  | 0, attempt, acc =>
    match reqs attempt with
    | .ok v => ⟨.ok v, attempt + 1, acc.reverse⟩
    | .fail raw => ⟨.error (categorizeError ts raw), attempt + 1, acc.reverse⟩
  | r + 1, attempt, acc =>
    match reqs attempt with
    | .ok v => ⟨.ok v, attempt + 1, acc.reverse⟩
    | .fail raw =>
      let e := categorizeError ts raw
      if e.retryable then
        retryFrom cfg ts reqs r (attempt + 1) (retryDelayFor cfg attempt e :: acc)
      else
        ⟨.error e, attempt + 1, acc.reverse⟩

/-- `retryRequest` of api.ts, as a trace over a sequence of attempt
outcomes (`reqs n` is what the n-th invocation of `requestFn` does). -/
def retryRequest {α : Type} (cfg : RetryConfig) (ts : String)
    (reqs : Nat → AttemptResult α) : RetryTrace α :=
  retryFrom cfg ts reqs cfg.maxRetries 0 []

/-! ### Cache store (`OfflineCache` of offlineCache.ts)

The persisted backing structure `Record<string, CachedItem>` is embedded
as an association list that preserves JS object key order: assignment of
an existing key keeps its position, a new key is appended, deletion
removes the key. -/

/-- A stored cache entry. -/
structure CachedItem where
  data : JsData
  timestamp : Int
  expiresAt : Int
  deriving DecidableEq, Repr

/-- The cache configuration: `maxAge` in milliseconds and `maxItems`. -/
structure CacheConfig where
  maxAge : Int
  maxItems : Nat
  deriving DecidableEq, Repr

/-- The parsed backing collection, key order preserved. -/
abbrev Obj : Type := List (String × CachedItem)

/-- `cache[key]` read. -/
def objGet (st : Obj) (k : String) : Option CachedItem :=
  (st.find? (fun kv => kv.1 = k)).map (fun kv => kv.2)

/-- `cache[key] = item`: overwrite in place, or append a new key. -/
def objSet (st : Obj) (k : String) (v : CachedItem) : Obj :=
  if st.any (fun kv => kv.1 = k) then
    st.map (fun kv => if kv.1 = k then (k, v) else kv)
  else
    st ++ [(k, v)]

/-- `delete cache[key]`. -/
def objDelete (st : Obj) (k : String) : Obj :=
  st.filter (fun kv => kv.1 ≠ k)

/-- `Object.keys(cache)`. -/
def objKeys (st : Obj) : List String :=
  st.map (fun kv => kv.1)

/-- The timestamp the cleanup sort comparator reads for key `k`
(only consulted when `k` is present). -/
def tsOf (st : Obj) (k : String) : Int :=
  match objGet st k with
  | some it => it.timestamp
  | none => 0

/-- Stable insertion (by `timestamp` ascending) used to model the
stable JS `Array.prototype.sort`. -/
def insertByTs (st : Obj) (k : String) : List String → List String
  | [] => [k]
  | k2 :: rest =>
    if tsOf st k2 ≤ tsOf st k then k2 :: insertByTs st k rest
    else k :: k2 :: rest

/-- `keys.sort((a, b) => cache[a].timestamp - cache[b].timestamp)`. -/
def sortByTs (st : Obj) (ks : List String) : List String :=
  ks.foldl (fun acc k => insertByTs st k acc) []

/-- `cleanup` of offlineCache.ts. Returns the thrown error, if any, and
the state the backing store is left in.

The `keys` list is captured before expired entries are deleted, so when
the count check passes the comparator of `keys.sort` reads
`cache[key].timestamp` for keys that may no longer exist; with at least
two keys every element takes part in a comparison, so a deleted key
makes the comparator read a property of `undefined` and the sort throws
a TypeError before anything is persisted. -/
def cleanup (cfg : CacheConfig) (now : Int) (st : Obj) : Option JsError × Obj :=
  let keys := objKeys st
  let st1 := st.filter (fun kv => ¬ kv.2.expiresAt < now)
  if keys.length > cfg.maxItems then
    if 2 ≤ keys.length ∧ keys.any (fun k => (objGet st1 k).isNone) then
      (some JsError.typeError, st)
    else
      let sorted := sortByTs st1 keys
      let toRemove := sorted.take (keys.length - cfg.maxItems)
      (none, toRemove.foldl (fun c k => objDelete c k) st1)
  else
    (none, st1)

/-- `set` of offlineCache.ts: no-op when caching is disabled; otherwise
write the entry (expiring at `now + (maxAge || configured maxAge)`),
persist, then run `cleanup`. The entry write is persisted before
`cleanup` runs, so a throwing `cleanup` leaves the written entry behind. -/
def cacheSet (enabled : Bool) (cfg : CacheConfig) (now : Int) (st : Obj)
    (key : String) (data : JsData) (maxAge : Option Int) : Option JsError × Obj :=
  if ¬ enabled then (none, st)
  else
    let age := match maxAge with
      | some a => if a = 0 then cfg.maxAge else a
      | none => cfg.maxAge
    let st1 := objSet st key ⟨data, now, now + age⟩
    match cleanup cfg now st1 with
    | (some err, _) => (some err, st1)
    | (none, st2) => (none, st2)

/-- `get` of offlineCache.ts: the returned value (`jsNull` is the absent
signal) and the state left behind (an expired entry is lazily removed). -/
def cacheGet (enabled : Bool) (now : Int) (st : Obj) (key : String) : JsData × Obj :=
  if ¬ enabled then (JsData.jsNull, st)
  else
    match objGet st key with
    | none => (JsData.jsNull, st)
    | some item =>
      if item.expiresAt < now then (JsData.jsNull, objDelete st key)
      else (item.data, st)

/-- `has` of offlineCache.ts: `get(key) !== null`. -/
def cacheHas (enabled : Bool) (now : Int) (st : Obj) (key : String) : Bool :=
  (cacheGet enabled now st key).1 ≠ JsData.jsNull

/-- `remove` of offlineCache.ts. -/
def cacheRemove (st : Obj) (key : String) : Obj :=
  objDelete st key

/-- `clear` of offlineCache.ts (the whole storage slot is removed). -/
def cacheClear (_st : Obj) : Obj :=
  []

/-- `getKeys` of offlineCache.ts: `Object.keys` of the whole persisted
collection, with no expiry filtering. -/
def cacheGetKeys (st : Obj) : List String :=
  objKeys st

/-- `getSize` of offlineCache.ts: the number of persisted entries, with
no expiry filtering. -/
def cacheGetSize (st : Obj) : Nat :=
  (objKeys st).length

/-! ### Request façade (cacheable reads of api.ts) -/

/-- The raw shape of a TypeError escaping the cache write inside
`requestFn`: no axios `code`, no `response`, and a message without
the word timeout, so it classifies as a network error. -/
def typeErrorRaw : AxiosErrorInput :=
  { code := none, message := "Cannot read properties of undefined", response := none }

/-- The retry loop of a cacheable read: like `retryFrom`, but each
attempt goes through `apiClient`, whose response interceptor
pre-categorizes a raw failure before `retryRequest`'s catch
re-categorizes it (`interceptedFailure`); a successful attempt writes
the response into the cache before returning (`searchCache.set` inside
`requestFn`), threading the cache state, and a TypeError thrown by that
write escapes `requestFn` without passing through the interceptor, so
it is categorized only once. -/
def cacheableReadGo (enabled : Bool) (ccfg : CacheConfig) (now : Int) (ts : String)
    (key : String) (reqs : Nat → AttemptResult JsData) :
    Nat → Nat → Obj → Except ApiError JsData × Obj
  | 0, attempt, st =>
    match reqs attempt with
    | .ok v =>
      match cacheSet enabled ccfg now st key v none with
      | (none, st1) => (.ok v, st1)
      | (some _, st1) => (.error (categorizeError ts typeErrorRaw), st1)
    | .fail raw => (.error (interceptedFailure ts raw), st)
  | r + 1, attempt, st =>
    match reqs attempt with
    | .ok v =>
      match cacheSet enabled ccfg now st key v none with
      | (none, st1) => (.ok v, st1)
      | (some _, st1) =>
        let e := categorizeError ts typeErrorRaw
        if e.retryable then
          cacheableReadGo enabled ccfg now ts key reqs r (attempt + 1) st1
        else (.error e, st1)
    | .fail raw =>
      let e := interceptedFailure ts raw
      if e.retryable then
        cacheableReadGo enabled ccfg now ts key reqs r (attempt + 1) st
      else (.error e, st)

/-- A cacheable read of api.ts (`searchItems`, `searchItemsGet`,
`getSavedItems` differ only in the cache key and endpoint): run the
retry pipeline; on a terminal failure whose code is `NETWORK_ERROR` or
`TIMEOUT_ERROR`, consult the cache and, when the cached value is truthy,
return it with the `_cached = true` annotation instead of the error. -/
def cacheableRead (enabled : Bool) (ccfg : CacheConfig) (rcfg : RetryConfig)
    (now : Int) (ts : String) (key : String) (st : Obj)
    (reqs : Nat → AttemptResult JsData) : Except ApiError (JsData × Bool) × Obj :=
  match cacheableReadGo enabled ccfg now ts key reqs rcfg.maxRetries 0 st with
  | (.ok v, st1) => (.ok (v, false), st1)
  | (.error e, st1) =>
    if e.code = "NETWORK_ERROR" ∨ e.code = "TIMEOUT_ERROR" then
      let g := cacheGet enabled now st1 key
      if g.1.truthy then (.ok (g.1, true), g.2) else (.error e, g.2)
    else (.error e, st1)

/-- Cache key of `searchItems`. -/
def searchKey (query : String) (lim : Int) : String :=
  "search_" ++ query ++ "_" ++ toString lim

/-- Cache key of `searchItemsGet`. -/
def searchGetKey (query : String) (lim : Int) : String :=
  "search_get_" ++ query ++ "_" ++ toString lim

/-- Cache key of `getSavedItems`. -/
def savedItemsKey : String :=
  "saved_items_all"

/-- `apiService.searchItems`. -/
def searchItems (enabled : Bool) (ccfg : CacheConfig) (rcfg : RetryConfig)
    (now : Int) (ts : String) (query : String) (lim : Int) (st : Obj)
    (reqs : Nat → AttemptResult JsData) : Except ApiError (JsData × Bool) × Obj :=
  cacheableRead enabled ccfg rcfg now ts (searchKey query lim) st reqs

/-- `apiService.searchItemsGet`. -/
def searchItemsGet (enabled : Bool) (ccfg : CacheConfig) (rcfg : RetryConfig)
    (now : Int) (ts : String) (query : String) (lim : Int) (st : Obj)
    (reqs : Nat → AttemptResult JsData) : Except ApiError (JsData × Bool) × Obj :=
  cacheableRead enabled ccfg rcfg now ts (searchGetKey query lim) st reqs

/-- `apiService.getSavedItems`. -/
def getSavedItems (enabled : Bool) (ccfg : CacheConfig) (rcfg : RetryConfig)
    (now : Int) (ts : String) (st : Obj)
    (reqs : Nat → AttemptResult JsData) : Except ApiError (JsData × Bool) × Obj :=
  cacheableRead enabled ccfg rcfg now ts savedItemsKey st reqs

/-! ### Error-presentation state (`useErrorHandler` of useOfflineDetection.ts) -/

/-- The `ErrorState` of types/api.ts. -/
structure ErrorState where
  hasError : Bool
  error : Option ApiError
  retryCount : Nat
  lastRetryTime : Option Int
  isRetrying : Bool
  deriving DecidableEq, Repr

/-- The all-clear state produced by `clearError`. -/
def clearedErrorState : ErrorState :=
  { hasError := false, error := none, retryCount := 0
    lastRetryTime := none, isRetrying := false }

/-- Observable effect of one `retry(retryFn)` call: whether the thunk
was invoked, the state while it runs, and the state after it settles. -/
structure RetryCallResult where
  invoked : Bool
  during : ErrorState
  final : ErrorState
  deriving DecidableEq, Repr

/-- `retry` of `useErrorHandler`: no-op unless the current error is
retryable and `retryCount < 3`; otherwise mark retrying and increment
`retryCount`, then on the thunk's success clear the error, on its
failure (`outcome = some e2`) keep the incremented count and store the
new error. `error?.retryable` is `undefined` (falsy) when no error is set. -/
def errRetry (s : ErrorState) (now : Int) (outcome : Option ApiError) : RetryCallResult :=
  let permitted : Bool :=
    (match s.error with
     | none => false
     | some e => e.retryable) && decide (s.retryCount < 3)
  if permitted then
    let during := { s with isRetrying := true, retryCount := s.retryCount + 1
                           lastRetryTime := some now }
    match outcome with
    | none => ⟨true, during, clearedErrorState⟩
    | some e2 => ⟨true, during, { during with isRetrying := false, error := some e2 }⟩
  else
    ⟨false, s, s⟩

/-! ### Spec-side definition used to compare against the code -/

/-- Modelled from the spec: the number of entries of the backing
collection whose `expiresAt` has not passed, which §4.1 says `size()`
reports and `keys()` ranges over. -/
def nonExpiredCount (st : Obj) (now : Int) : Nat :=
  (st.filter (fun kv => ¬ kv.2.expiresAt < now)).length

/-- Modelled from the spec: the keys of the non-expired entries,
which §4.1 says `keys()` returns. -/
def nonExpiredKeys (st : Obj) (now : Int) : List String :=
  objKeys (st.filter (fun kv => ¬ kv.2.expiresAt < now))

/-! ### Concrete inputs used by witnesses and counterexamples -/

/-- A response failure with HTTP status 404 and no special headers. -/
def err404Input : AxiosErrorInput :=
  { response := some { status := 404 } }

/-- A 429 response whose retry-after header is not a number. -/
def err429BadHeaderInput : AxiosErrorInput :=
  { response := some { status := 429, retryAfterHeader := some "abc" } }

/-- A 429 response whose retry-after header is the integer 0. -/
def err429ZeroInput : AxiosErrorInput :=
  { response := some { status := 429, retryAfterHeader := some "0" } }

/-- A 503 response failure. -/
def err503Input : AxiosErrorInput :=
  { response := some { status := 503 } }

/-- A 429 response whose retry-after header is the integer 7. -/
def err429SevenInput : AxiosErrorInput :=
  { response := some { status := 429, retryAfterHeader := some "7" } }

/-- A connection failure with no response at all (network error). -/
def errNetworkInput : AxiosErrorInput := {}

/-- A 400 response failure. -/
def err400Input : AxiosErrorInput :=
  { response := some { status := 400 } }

/-- A retry policy with a single retry. -/
def oneRetryConfig : RetryConfig :=
  { maxRetries := 1, retryDelay := 1000, backoffMultiplier := 2, maxRetryDelay := 10000 }

/-- A small cache configuration bounded to one item. -/
def smallCacheConfig : CacheConfig :=
  { maxAge := 1000, maxItems := 1 }

/-- A roomy cache configuration. -/
def roomyCacheConfig : CacheConfig :=
  { maxAge := 100000, maxItems := 50 }

/-- Backing store holding one expired entry (k1) and one fresh entry
(k2) relative to time 100. -/
def twoItemStore : Obj :=
  [("k1", ⟨JsData.payload 1, 0, 5⟩), ("k2", ⟨JsData.payload 2, 10, 1000⟩)]

/-- Backing store holding a single entry that expires at time 5. -/
def oneItemStore : Obj :=
  [("k", ⟨JsData.payload 1, 0, 5⟩)]

/-- Backing store holding a fresh cached search response under the key
`searchKey q 20`. -/
def searchStore : Obj :=
  [("search_q_20", ⟨JsData.payload 7, 0, 10000⟩)]

/-- Backing store holding a fresh cached saved-items response under the
key `savedItemsKey`. -/
def savedStore : Obj :=
  [("saved_items_all", ⟨JsData.payload 9, 0, 10000⟩)]

/-! ### Classifier lemmas -/

/-- Exhaustive description of `categorizeError`: the six kinds, their
`retryable` flags, and — for the `ServerError` kind — the dependence of
`retryable` on the HTTP status of the response that produced it. -/
lemma categorizeError_cases (ts : String) (e : AxiosErrorInput) :
    ((categorizeError ts e).error = "TimeoutError" ∧ (categorizeError ts e).retryable = true) ∨
    ((categorizeError ts e).error = "NetworkError" ∧ (categorizeError ts e).retryable = true) ∨
    ((categorizeError ts e).error = "ValidationError" ∧ (categorizeError ts e).retryable = false) ∨
    ((categorizeError ts e).error = "AuthenticationError" ∧ (categorizeError ts e).retryable = false) ∨
    ((categorizeError ts e).error = "RateLimitError" ∧ (categorizeError ts e).retryable = true) ∨
    ((categorizeError ts e).error = "ServerError" ∧
      ∃ resp, e.response = some resp ∧
        (categorizeError ts e).retryable = decide (500 ≤ resp.status)) := by
  unfold categorizeError
  split
  · exact Or.inl ⟨rfl, rfl⟩
  · split
    · exact Or.inr (Or.inl ⟨rfl, rfl⟩)
    · rename_i r heq
      split_ifs with h400 h401 h429 h5xx
      · exact Or.inr (Or.inr (Or.inl ⟨rfl, rfl⟩))
      · exact Or.inr (Or.inr (Or.inr (Or.inl ⟨rfl, rfl⟩)))
      · exact Or.inr (Or.inr (Or.inr (Or.inr (Or.inl ⟨rfl, rfl⟩))))
      · refine Or.inr (Or.inr (Or.inr (Or.inr (Or.inr ⟨rfl, r, heq, ?_⟩))))
        have : (500 : Int) ≤ r.status := by rcases h5xx with h | h | h | h <;> omega
        simp [this]
      · exact Or.inr (Or.inr (Or.inr (Or.inr (Or.inr ⟨rfl, r, heq, rfl⟩))))

/-- The classifier marks Timeout, Network and RateLimit errors retryable. -/
lemma retryable_of_transient_kind (ts : String) (e : AxiosErrorInput)
    (h : (categorizeError ts e).error = "TimeoutError" ∨
         (categorizeError ts e).error = "NetworkError" ∨
         (categorizeError ts e).error = "RateLimitError") :
    (categorizeError ts e).retryable = true := by
  rcases categorizeError_cases ts e with ⟨h1, h2⟩ | ⟨h1, h2⟩ | ⟨h1, h2⟩ | ⟨h1, h2⟩ | ⟨h1, h2⟩ | ⟨h1, _, _, h2⟩ <;>
    rcases h with h | h | h <;> simp_all

/-- The classifier marks Validation and Auth errors non-retryable. -/
lemma not_retryable_of_val_auth (ts : String) (e : AxiosErrorInput)
    (h : (categorizeError ts e).error = "ValidationError" ∨
         (categorizeError ts e).error = "AuthenticationError") :
    (categorizeError ts e).retryable = false := by
  rcases categorizeError_cases ts e with ⟨h1, h2⟩ | ⟨h1, h2⟩ | ⟨h1, h2⟩ | ⟨h1, h2⟩ | ⟨h1, h2⟩ | ⟨h1, _, _, h2⟩ <;>
    rcases h with h | h <;> simp_all

/-- For the `ServerError` kind, `retryable` tracks the HTTP status. -/
lemma server_retryable_iff (ts : String) (e : AxiosErrorInput) (resp : RespInfo)
    (hresp : e.response = some resp)
    (h : (categorizeError ts e).error = "ServerError") :
    ((categorizeError ts e).retryable = true ↔ 500 ≤ resp.status) := by
  rcases categorizeError_cases ts e with ⟨h1, h2⟩ | ⟨h1, h2⟩ | ⟨h1, h2⟩ | ⟨h1, h2⟩ | ⟨h1, h2⟩ | ⟨h1, resp2, hr2, h2⟩ <;>
    simp_all

/-! ### Claim C1 -/

/-- C1 (amended): `retryable` is true for the Timeout, Network and
RateLimit kinds and false for the Validation and Auth kinds, but for the
Server kind it is not a pure function of the kind: a Server-classified
error is retryable exactly when the HTTP status that produced it is at
least 500 (the default classifier branch labels unexpected statuses such
as 404 `ServerError` with `retryable = false`). -/
theorem claim_C1_retryable_of_kind (ts : String) (e : AxiosErrorInput) :
    ((categorizeError ts e).error = "TimeoutError" ∨
     (categorizeError ts e).error = "NetworkError" ∨
     (categorizeError ts e).error = "RateLimitError" →
       (categorizeError ts e).retryable = true) ∧
    ((categorizeError ts e).error = "ValidationError" ∨
     (categorizeError ts e).error = "AuthenticationError" →
       (categorizeError ts e).retryable = false) ∧
    (∀ resp, e.response = some resp →
      (categorizeError ts e).error = "ServerError" →
      ((categorizeError ts e).retryable = true ↔ 500 ≤ resp.status)) :=
  ⟨retryable_of_transient_kind ts e, not_retryable_of_val_auth ts e,
   fun resp hresp h => server_retryable_iff ts e resp hresp h⟩

/-- Witness for C1: a network failure is retryable, a 400 validation
failure is not, and a 503 produces a retryable ServerError. -/
theorem claim_C1_retryable_of_kind_witness :
    (categorizeError "t" errNetworkInput).retryable = true ∧
    (categorizeError "t" err400Input).retryable = false ∧
    (categorizeError "t" err503Input).retryable = true :=
  ⟨(claim_C1_retryable_of_kind "t" errNetworkInput).1 (Or.inr (Or.inl rfl)),
   (claim_C1_retryable_of_kind "t" err400Input).2.1 (Or.inl rfl),
   ((claim_C1_retryable_of_kind "t" err503Input).2.2 { status := 503 } rfl rfl).2
     (by decide)⟩

/-- Counterexample to C1 as stated: a 404 response is classified with
kind Server yet `retryable = false`, so `retryable` is not a pure
function of the kind and a Server classification does depend on the
HTTP status. -/
theorem claim_C1_counterexample :
    (categorizeError "t" err404Input).error = "ServerError" ∧
    (categorizeError "t" err404Input).retryable = false := by
  decide

/-! ### Claim C5 -/

/-- C5 (amended): a 429 response (not pre-empted by the timeout guard)
is classified RateLimit and retryable, with `retryAfterSeconds` the JS
`parseInt` of the retry-after header; the value 60 is substituted only
when the header is absent or the empty string, while a present but
unparseable header yields NaN, not 60. -/
theorem claim_C5_rate_limit_retry_after (ts : String) (e : AxiosErrorInput)
    (resp : RespInfo) (hresp : e.response = some resp)
    (hstatus : resp.status = 429)
    (hcode : ¬ e.code = some "ECONNABORTED")
    (hmsg : jsIncludes e.message "timeout" = false) :
    (categorizeError ts e).error = "RateLimitError" ∧
    (categorizeError ts e).retryable = true ∧
    (categorizeError ts e).retryAfter =
      some (jsParseInt (jsStrOr resp.retryAfterHeader "60")) ∧
    (resp.retryAfterHeader = none →
      (categorizeError ts e).retryAfter = some (JsNum.num 60)) ∧
    (resp.retryAfterHeader = some "" →
      (categorizeError ts e).retryAfter = some (JsNum.num 60)) := by
  have hguard : ¬ (e.code = some "ECONNABORTED" ∨ jsIncludes e.message "timeout") := by
    simp [hcode, hmsg]
  refine ⟨?_, ?_, ?_, ?_, ?_⟩ <;>
    simp [categorizeError, hguard, hresp, hstatus, jsStrOr] <;>
    intro h <;> simp [h] <;> decide

/-- Witness for C5: a 429 with header "7" yields `retryAfter` 7, and the
parse of the fallback string is 60. -/
theorem claim_C5_rate_limit_retry_after_witness :
    (categorizeError "t" err429SevenInput).error = "RateLimitError" ∧
    (categorizeError "t" err429SevenInput).retryAfter = some (JsNum.num 7) :=
  have h := claim_C5_rate_limit_retry_after "t" err429SevenInput
    { status := 429, retryAfterHeader := some "7" } rfl rfl (by decide) (by decide)
  ⟨h.1, by rw [h.2.2.1]; decide⟩

/-- Counterexample to C5 as stated: a present but unparseable retry-after
header ("abc") makes `retryAfterSeconds` NaN, not the claimed 60 — the
`|| 60` fallback applies only to an absent or empty header string. -/
theorem claim_C5_counterexample :
    (categorizeError "t" err429BadHeaderInput).retryAfter = some JsNum.nan ∧
    some JsNum.nan ≠ some (JsNum.num 60) := by
  decide

/-! ### Retry orchestrator lemmas -/

/-- When every attempt fails and every classification is retryable, the
loop from `attempt` with `remaining` further attempts allowed performs
exactly `remaining + 1` more invocations and surfaces the terminal
classification of the last attempt. -/
lemma retryFrom_all_fail {α : Type} (cfg : RetryConfig) (ts : String)
    (raw : Nat → AxiosErrorInput) (reqs : Nat → AttemptResult α)
    (hall : ∀ n, reqs n = .fail (raw n))
    (hretry : ∀ n, (categorizeError ts (raw n)).retryable = true) :
    ∀ remaining attempt acc,
      (retryFrom cfg ts reqs remaining attempt acc).attempts = attempt + remaining + 1 ∧
      (retryFrom cfg ts reqs remaining attempt acc).result =
        .error (categorizeError ts (raw (attempt + remaining))) := by
  intro remaining
  induction remaining with
  | zero =>
    intro attempt acc
    simp [retryFrom, hall attempt]
  | succ r ih =>
    intro attempt acc
    have h := ih (attempt + 1) (retryDelayFor cfg attempt (categorizeError ts (raw attempt)) :: acc)
    simp only [retryFrom, hall attempt, hretry attempt, if_true]
    have hidx : attempt + 1 + r = attempt + (r + 1) := by omega
    constructor
    · rw [h.1]; omega
    · rw [h.2, hidx]

/-- A failing attempt with a non-retryable classification ends the loop
at once, whatever the remaining budget. -/
lemma retryFrom_nonretryable {α : Type} (cfg : RetryConfig) (ts : String)
    (reqs : Nat → AttemptResult α) (raw : AxiosErrorInput)
    (remaining attempt : Nat) (acc : List Int)
    (hfail : reqs attempt = .fail raw)
    (hnr : (categorizeError ts raw).retryable = false) :
    retryFrom cfg ts reqs remaining attempt acc =
      ⟨.error (categorizeError ts raw), attempt + 1, acc.reverse⟩ := by
  cases remaining <;> simp [retryFrom, hfail, hnr]

/-- Closed form of the waits performed by an all-fail, all-retryable run. -/
lemma retryFrom_delays {α : Type} (cfg : RetryConfig) (ts : String)
    (raw : Nat → AxiosErrorInput) (reqs : Nat → AttemptResult α)
    (hall : ∀ n, reqs n = .fail (raw n))
    (hretry : ∀ n, (categorizeError ts (raw n)).retryable = true) :
    ∀ remaining attempt acc,
      (retryFrom cfg ts reqs remaining attempt acc).delays =
        acc.reverse ++ (List.range remaining).map
          (fun i => retryDelayFor cfg (attempt + i) (categorizeError ts (raw (attempt + i)))) := by
  intro remaining
  induction remaining with
  | zero =>
    intro attempt acc
    simp [retryFrom, hall attempt]
  | succ r ih =>
    intro attempt acc
    have h := ih (attempt + 1) (retryDelayFor cfg attempt (categorizeError ts (raw attempt)) :: acc)
    simp only [retryFrom, hall attempt, hretry attempt, if_true]
    rw [h, List.range_succ_eq_map, List.map_cons, List.map_map]
    have hmap :
        (List.range r).map
          (fun i => retryDelayFor cfg (attempt + 1 + i)
            (categorizeError ts (raw (attempt + 1 + i)))) =
        (List.range r).map
          ((fun i => retryDelayFor cfg (attempt + i)
            (categorizeError ts (raw (attempt + i)))) ∘ Nat.succ) := by
      apply List.map_congr_left
      intro i _
      have hi : attempt + 1 + i = attempt + Nat.succ i := by omega
      simp [Function.comp_def, hi]
    rw [hmap]
    simp [List.append_assoc]

/-! ### Claim C3 -/

/-- C3: with `maxRetries = N`, an operation failing every attempt with a
retryable classification is attempted exactly N + 1 times and the
terminal classification is surfaced; an operation whose first attempt
fails with a Validation or Auth classification is attempted exactly
once, regardless of N. -/
theorem claim_C3_attempt_counts {α : Type} (cfg : RetryConfig) (ts : String)
    (reqs : Nat → AttemptResult α) :
    (∀ raw : Nat → AxiosErrorInput,
      (∀ n, reqs n = .fail (raw n)) →
      (∀ n, (categorizeError ts (raw n)).retryable = true) →
      (retryRequest cfg ts reqs).attempts = cfg.maxRetries + 1 ∧
      (retryRequest cfg ts reqs).result =
        .error (categorizeError ts (raw cfg.maxRetries))) ∧
    (∀ raw0 : AxiosErrorInput,
      reqs 0 = .fail raw0 →
      ((categorizeError ts raw0).error = "ValidationError" ∨
       (categorizeError ts raw0).error = "AuthenticationError") →
      (retryRequest cfg ts reqs).attempts = 1 ∧
      (retryRequest cfg ts reqs).result = .error (categorizeError ts raw0)) := by
  constructor
  · intro raw hall hretry
    have h := retryFrom_all_fail cfg ts raw reqs hall hretry cfg.maxRetries 0 []
    simpa [retryRequest] using h
  · intro raw0 hfail hkind
    have hnr := not_retryable_of_val_auth ts raw0 hkind
    have h := retryFrom_nonretryable cfg ts reqs raw0 cfg.maxRetries 0 [] hfail hnr
    simp [retryRequest, h]

/-- Witness for C3: four attempts for always-503 under the default
policy (3 retries), one attempt for a 400 validation failure. -/
theorem claim_C3_attempt_counts_witness :
    (retryRequest DEFAULT_RETRY_CONFIG "t"
      (fun _ => (AttemptResult.fail err503Input : AttemptResult JsData))).attempts = 4 ∧
    (retryRequest DEFAULT_RETRY_CONFIG "t"
      (fun _ => (AttemptResult.fail err400Input : AttemptResult JsData))).attempts = 1 :=
  ⟨((claim_C3_attempt_counts DEFAULT_RETRY_CONFIG "t"
      (fun _ => AttemptResult.fail err503Input)).1
      (fun _ => err503Input) (fun _ => rfl)
      (fun _ => show (categorizeError "t" err503Input).retryable = true by decide)).1,
   ((claim_C3_attempt_counts DEFAULT_RETRY_CONFIG "t"
      (fun _ => AttemptResult.fail err400Input)).2
      err400Input rfl (Or.inl (by decide))).1⟩

/-! ### Claim C4 -/

/-- C4 (amended): between attempts, the orchestrator waits
`min(baseDelay * multiplier^n, maxDelay)` after failed attempt `n` for
every retryable classification except RateLimit; for a RateLimit
classification it waits `retryAfterSeconds * 1000` when
`retryAfterSeconds` is a nonzero integer, but substitutes 60 seconds
when `retryAfterSeconds` is 0 or NaN (the `retryAfter || 60` fallback).
With the defaults, three consecutive Server failures wait 1000 ms,
2000 ms and 4000 ms. -/
theorem claim_C4_retry_waits :
    (∀ (cfg : RetryConfig) (ts : String) (raw : Nat → AxiosErrorInput)
       (reqs : Nat → AttemptResult JsData),
      (∀ n, reqs n = .fail (raw n)) →
      (∀ n, (categorizeError ts (raw n)).retryable = true) →
      (retryRequest cfg ts reqs).delays =
        (List.range cfg.maxRetries).map
          (fun n => retryDelayFor cfg n (categorizeError ts (raw n)))) ∧
    (∀ (cfg : RetryConfig) (attempt : Nat) (e : ApiError),
      e.code ≠ "RATE_LIMIT_ERROR" →
      retryDelayFor cfg attempt e =
        min (cfg.retryDelay * cfg.backoffMultiplier ^ attempt) cfg.maxRetryDelay) ∧
    (∀ (cfg : RetryConfig) (attempt : Nat) (e : ApiError) (r : Int),
      e.code = "RATE_LIMIT_ERROR" → e.retryAfter = some (JsNum.num r) → r ≠ 0 →
      retryDelayFor cfg attempt e = r * 1000) ∧
    (retryRequest DEFAULT_RETRY_CONFIG "t"
      (fun _ => (AttemptResult.fail err503Input : AttemptResult JsData))).delays =
        [1000, 2000, 4000] := by
  refine ⟨?_, ?_, ?_, by decide⟩
  · intro cfg ts raw reqs hall hretry
    have h := retryFrom_delays cfg ts raw reqs hall hretry cfg.maxRetries 0 []
    simpa [retryRequest] using h
  · intro cfg attempt e h
    simp [retryDelayFor, h]
  · intro cfg attempt e r hcode hafter hzero
    simp [retryDelayFor, hcode, hafter, JsNum.orDefault, hzero]

/-- Witness for C4: a rate-limit error carrying `retryAfter = 7` makes
the orchestrator wait 7000 ms, ignoring the exponential schedule. -/
theorem claim_C4_retry_waits_witness :
    retryDelayFor DEFAULT_RETRY_CONFIG 0 (categorizeError "t" err429SevenInput) = 7 * 1000 :=
  claim_C4_retry_waits.2.2.1 DEFAULT_RETRY_CONFIG 0
    (categorizeError "t" err429SevenInput) 7 (by decide) (by decide) (by decide)

/-- Counterexample to C4 as stated: a RateLimit error whose
`retryAfterSeconds` is 0 (retry-after header "0") waits 60000 ms, not
`retryAfterSeconds * 1000 = 0` ms. -/
theorem claim_C4_counterexample :
    (categorizeError "t" err429ZeroInput).error = "RateLimitError" ∧
    (categorizeError "t" err429ZeroInput).retryAfter = some (JsNum.num 0) ∧
    (retryRequest oneRetryConfig "t"
      (fun _ => (AttemptResult.fail err429ZeroInput : AttemptResult JsData))).delays = [60000] ∧
    (60000 : Int) ≠ 0 * 1000 := by
  decide

/-! ### Cache store lemmas -/

/-- A lookup that succeeds still succeeds after a filter that keeps the
found entry (filtering preserves order and cannot promote a later
duplicate past the first hit). -/
lemma objGet_filter {p : String × CachedItem → Bool} {st : Obj} {k : String}
    {v : CachedItem} (h : objGet st k = some v) (hp : p (k, v) = true) :
    objGet (st.filter p) k = some v := by
  induction st with
  | nil => simp [objGet] at h
  | cons a rest ih =>
    rcases a with ⟨ak, av⟩
    by_cases hk : ak = k
    · subst hk
      have hv : av = v := by simpa [objGet, List.find?] using h
      subst hv
      simp [List.filter_cons, hp, objGet, List.find?]
    · have h2 : objGet rest k = some v := by
        simpa [objGet, List.find?, hk] using h
      have h3 := ih h2
      by_cases hpa : p (ak, av)
      · simpa [List.filter_cons, hpa, objGet, List.find?, hk] using h3
      · simpa [List.filter_cons, hpa] using h3

/-- Writing a key makes it readable with the written entry. -/
lemma objGet_objSet_self (st : Obj) (k : String) (v : CachedItem) :
    objGet (objSet st k v) k = some v := by
  induction st with
  | nil => simp [objSet, objGet, List.find?]
  | cons a rest ih =>
    by_cases hk : a.1 = k
    · simp [objSet, List.any_cons, hk, objGet, List.find?]
    · by_cases hrest : rest.any (fun kv => kv.1 = k)
      · have h2 : objGet (objSet rest k v) k = some v := ih
        simp only [objSet, hrest, if_true] at h2
        simp only [objSet, List.any_cons, hk, hrest, decide_eq_true_eq]
        simpa [objGet, List.find?, hk] using h2
      · have h2 : objGet (objSet rest k v) k = some v := ih
        simp only [objSet, hrest, if_false, Bool.false_eq_true] at h2
        simp only [objSet, List.any_cons, hk, hrest, decide_eq_true_eq]
        simpa [objGet, List.find?, hk] using h2

/-- Writing one key grows the collection by at most one entry. -/
lemma objSet_length_le (st : Obj) (k : String) (v : CachedItem) :
    (objSet st k v).length ≤ st.length + 1 := by
  unfold objSet
  split <;> simp

/-- While the collection is within the item bound, `cleanup` throws
nothing and just drops the expired entries. -/
lemma cleanup_under_bound (cfg : CacheConfig) (now : Int) (st : Obj)
    (h : st.length ≤ cfg.maxItems) :
    cleanup cfg now st = (none, st.filter (fun kv => ¬ kv.2.expiresAt < now)) := by
  have hlen : ¬ (objKeys st).length > cfg.maxItems := by
    simp only [objKeys, List.length_map]
    omega
  simp [cleanup, hlen]

/-- `get` on a present, unexpired entry returns its data and leaves the
store unchanged. -/
lemma cacheGet_fresh {now : Int} {st : Obj} {key : String} {item : CachedItem}
    (hitem : objGet st key = some item) (hfresh : ¬ item.expiresAt < now) :
    cacheGet true now st key = (item.data, st) := by
  simp [cacheGet, hitem, hfresh]

/-! ### Claim C6 -/

/-- C6 (amended): with caching enabled, `get` returns the stored data
exactly when `expiresAt ≥ now` — at the boundary `expiresAt == now` the
entry is still served, the entry being treated as expired only when
`expiresAt < now`, in which case `get` returns the absent signal and
removes the entry; `get` returns absent unconditionally when caching is
disabled; a read before expiry returns the stored value unchanged. -/
theorem claim_C6_get_expiry (enabled : Bool) (now : Int) (st : Obj) (key : String) :
    (enabled = false → cacheGet enabled now st key = (JsData.jsNull, st)) ∧
    (objGet st key = none → cacheGet enabled now st key = (JsData.jsNull, st)) ∧
    (∀ item, objGet st key = some item → enabled = true → now ≤ item.expiresAt →
      cacheGet enabled now st key = (item.data, st)) ∧
    (∀ item, objGet st key = some item → enabled = true → item.expiresAt < now →
      cacheGet enabled now st key = (JsData.jsNull, objDelete st key)) := by
  refine ⟨?_, ?_, ?_, ?_⟩
  · intro h; subst h; simp [cacheGet]
  · intro h; cases enabled <;> simp [cacheGet, h]
  · intro item hitem hen hle
    subst hen
    simp [cacheGet, hitem, not_lt.mpr hle]
  · intro item hitem hen hlt
    subst hen
    simp [cacheGet, hitem, hlt]

/-- Witness for C6: a read at time 3 returns the entry expiring at 5
unchanged; a read at time 10 returns absent and deletes the entry. -/
theorem claim_C6_get_expiry_witness :
    cacheGet true 3 oneItemStore "k" = (JsData.payload 1, oneItemStore) ∧
    cacheGet true 10 oneItemStore "k" = (JsData.jsNull, []) :=
  ⟨(claim_C6_get_expiry true 3 oneItemStore "k").2.2.1
      ⟨JsData.payload 1, 0, 5⟩ (by decide) rfl (by decide),
   (claim_C6_get_expiry true 10 oneItemStore "k").2.2.2
      ⟨JsData.payload 1, 0, 5⟩ (by decide) rfl (by decide)⟩

/-- Counterexample to C6 as stated: at the instant `now = expiresAt = 5`
the entry's `expiresAt > now` is false, yet `get` returns the stored
data — the code treats an entry as expired only when `expiresAt < now`. -/
theorem claim_C6_counterexample :
    objGet oneItemStore "k" = some ⟨JsData.payload 1, 0, 5⟩ ∧
    (cacheGet true 5 oneItemStore "k").1 = JsData.payload 1 ∧
    ¬ ((5 : Int) < 5) := by
  decide

/-! ### Claim C7 -/

/-- C7: evaluation of the code at the failing input. With `maxItems = 1`
and a persisted collection holding an expired entry k1 and a fresh entry
k2, `set("k3", …)` runs `cleanup`, which deletes k1 but sorts the stale
key list `[k1, k2, k3]` with a comparator that reads
`cache[k1].timestamp` of the now-deleted k1 — a TypeError that escapes
`set`, contradicting the spec's guarantee that the store never throws. -/
theorem claim_C7_set_throws :
    (cacheSet true smallCacheConfig 100 twoItemStore "k3" (JsData.payload 3) none).1 =
      some JsError.typeError := by
  decide

/-! ### Claim C8 -/

/-- C8 (amended): `keys()` and `size()` do not filter by expiry — they
range over every physically persisted entry: `size` is the length of
`keys`, every stored key (expired or not) is listed, and whenever some
stored entry is expired, `size()` strictly exceeds the number of
non-expired entries the spec says it should report. -/
theorem claim_C8_introspection (st : Obj) (now : Int) :
    cacheGetSize st = (cacheGetKeys st).length ∧
    (∀ k item, objGet st k = some item → k ∈ cacheGetKeys st) ∧
    (∀ k item, objGet st k = some item → item.expiresAt < now →
      nonExpiredCount st now < cacheGetSize st) := by
  refine ⟨rfl, ?_, ?_⟩
  · intro k item h
    simp only [objGet, Option.map_eq_some'] at h
    obtain ⟨kv, hfind, hsnd⟩ := h
    have hmem := List.mem_of_find?_eq_some hfind
    have hpred := List.find?_some hfind
    simp only [decide_eq_true_eq] at hpred
    exact hpred ▸ List.mem_map_of_mem (fun kv => kv.1) hmem
  · intro k item h hexp
    simp only [objGet, Option.map_eq_some'] at h
    obtain ⟨kv, hfind, hsnd⟩ := h
    have hmem := List.mem_of_find?_eq_some hfind
    have hlt : ((st.filter (fun kv => ¬ kv.2.expiresAt < now)).length < st.length) := by
      rw [List.length_filter_lt_length_iff_exists]
      refine ⟨kv, hmem, ?_⟩
      simp [hsnd, hexp]
    simpa [nonExpiredCount, cacheGetSize, objKeys] using hlt

/-- Witness for C8: the store holding only an entry expired at time 10
has size 1, lists its key, and exceeds the spec's non-expired count. -/
theorem claim_C8_introspection_witness :
    "k" ∈ cacheGetKeys oneItemStore ∧
    nonExpiredCount oneItemStore 10 < cacheGetSize oneItemStore :=
  ⟨(claim_C8_introspection oneItemStore 10).2.1 "k"
      ⟨JsData.payload 1, 0, 5⟩ (by decide),
   (claim_C8_introspection oneItemStore 10).2.2 "k"
      ⟨JsData.payload 1, 0, 5⟩ (by decide) (by decide)⟩

/-- Counterexample to C8 as stated: with its single entry expired at
time 10, `size()` still reports 1 (the spec's non-expired count is 0)
and `keys()` still lists the expired key. -/
theorem claim_C8_counterexample :
    cacheGetSize oneItemStore = 1 ∧
    nonExpiredCount oneItemStore 10 = 0 ∧
    cacheGetKeys oneItemStore = ["k"] ∧
    nonExpiredKeys oneItemStore 10 = [] := by
  decide

/-! ### Claim C10 -/

/-- C10: a null payload is indistinguishable from absence at the public
interface — after `set(k, null)` (within capacity, so the write
persists and nothing throws), a read before expiry returns the absent
signal `null` and `has(k)` is false, because `has` is `get(k) !== null`
and `get` returns the stored data value itself. -/
theorem claim_C10_null_payload (ccfg : CacheConfig) (st : Obj) (key : String)
    (now now2 : Int) (hage : 0 < ccfg.maxAge) (hcap : st.length < ccfg.maxItems)
    (hread : now2 ≤ now + ccfg.maxAge) :
    (cacheSet true ccfg now st key JsData.jsNull none).1 = none ∧
    (cacheGet true now2 (cacheSet true ccfg now st key JsData.jsNull none).2 key).1 =
      JsData.jsNull ∧
    cacheHas true now2 (cacheSet true ccfg now st key JsData.jsNull none).2 key = false := by
  have hlen : (objSet st key ⟨JsData.jsNull, now, now + ccfg.maxAge⟩).length ≤ ccfg.maxItems := by
    have := objSet_length_le st key ⟨JsData.jsNull, now, now + ccfg.maxAge⟩
    omega
  have hclean := cleanup_under_bound ccfg now
    (objSet st key ⟨JsData.jsNull, now, now + ccfg.maxAge⟩) hlen
  have hset : cacheSet true ccfg now st key JsData.jsNull none =
      (none, (objSet st key ⟨JsData.jsNull, now, now + ccfg.maxAge⟩).filter
        (fun kv => ¬ kv.2.expiresAt < now)) := by
    simp [cacheSet, hclean]
  have hget : objGet ((objSet st key ⟨JsData.jsNull, now, now + ccfg.maxAge⟩).filter
      (fun kv => ¬ kv.2.expiresAt < now)) key = some ⟨JsData.jsNull, now, now + ccfg.maxAge⟩ := by
    refine objGet_filter (objGet_objSet_self st key _) ?_
    simp only [decide_eq_true_eq]
    omega
  have hg := @cacheGet_fresh now2 _ _ _ hget
    (show ¬ (⟨JsData.jsNull, now, now + ccfg.maxAge⟩ : CachedItem).expiresAt < now2 by
      show ¬ now + ccfg.maxAge < now2
      omega)
  have h2 : (cacheSet true ccfg now st key JsData.jsNull none).2 =
      (objSet st key ⟨JsData.jsNull, now, now + ccfg.maxAge⟩).filter
        (fun kv => ¬ kv.2.expiresAt < now) := by
    rw [hset]
  refine ⟨by rw [hset], ?_, ?_⟩
  · rw [h2, hg]
  · simp only [cacheHas]
    rw [h2, hg]
    simp

/-- Witness for C10: storing null in an empty store and reading it back
at time 100 yields the absent signal and `has = false`. -/
theorem claim_C10_null_payload_witness :
    (cacheGet true 100 (cacheSet true smallCacheConfig 0 [] "k" JsData.jsNull none).2 "k").1 =
      JsData.jsNull ∧
    cacheHas true 100 (cacheSet true smallCacheConfig 0 [] "k" JsData.jsNull none).2 "k" = false :=
  ⟨(claim_C10_null_payload smallCacheConfig [] "k" 0 100
      (by decide) (by decide) (by decide)).2.1,
   (claim_C10_null_payload smallCacheConfig [] "k" 0 100
      (by decide) (by decide) (by decide)).2.2⟩

/-! ### Claim C2 -/

/-- The second categorization pass inside `retryRequest` sees an
`ApiError` with no `response`, so it can only produce a Timeout or a
Network classification — always retryable, never Validation, Auth,
RateLimit or Server. -/
lemma interceptedFailure_network_or_timeout (ts : String) (raw : AxiosErrorInput) :
    ((interceptedFailure ts raw).code = "TIMEOUT_ERROR" ∨
     (interceptedFailure ts raw).code = "NETWORK_ERROR") ∧
    (interceptedFailure ts raw).retryable = true := by
  unfold interceptedFailure
  generalize categorizeError ts raw = e0
  unfold categorizeError
  split
  · exact ⟨Or.inl rfl, rfl⟩
  · exact ⟨Or.inr rfl, rfl⟩

/-- When every attempt of a cacheable read throws the same raw failure,
the retry phase ends in the re-categorized terminal classification of
that failure and never touches the cache state. -/
lemma cacheableReadGo_all_fail (enabled : Bool) (ccfg : CacheConfig) (now : Int)
    (ts : String) (key : String) (raw : AxiosErrorInput)
    (reqs : Nat → AttemptResult JsData) (hall : ∀ n, reqs n = .fail raw) :
    ∀ remaining attempt st,
      cacheableReadGo enabled ccfg now ts key reqs remaining attempt st =
        (.error (interceptedFailure ts raw), st) := by
  intro remaining
  induction remaining with
  | zero =>
    intro attempt st
    simp [cacheableReadGo, hall attempt]
  | succ r ih =>
    intro attempt st
    by_cases hretry : (interceptedFailure ts raw).retryable
    · simp [cacheableReadGo, hall attempt, hretry, ih]
    · simp [cacheableReadGo, hall attempt, hretry]

/-- A terminal failure of a cacheable read always satisfies the
Network-or-Timeout guard of the catch block, so whenever the cache
holds a truthy payload for the key it is served annotated
`_cached = true`, whatever the raw failures were. -/
lemma cacheableRead_always_falls_back (enabled : Bool) (ccfg : CacheConfig)
    (rcfg : RetryConfig) (now : Int) (ts : String) (key : String) (st : Obj)
    (raw : AxiosErrorInput) (reqs : Nat → AttemptResult JsData)
    (hall : ∀ n, reqs n = .fail raw) (p : Nat)
    (hp : (cacheGet enabled now st key).1 = JsData.payload p) :
    cacheableRead enabled ccfg rcfg now ts key st reqs =
      (.ok (JsData.payload p, true), (cacheGet enabled now st key).2) := by
  have hgo := cacheableReadGo_all_fail enabled ccfg now ts key raw reqs hall
    rcfg.maxRetries 0 st
  have hcode := (interceptedFailure_network_or_timeout ts raw).1
  simp [cacheableRead, hgo, hcode.symm, hp, JsData.truthy]

/-- C2: evaluation of the code at the failing input, tracing the
response interceptor. A raw 503 is classified `ServerError` by the
interceptor, but `retryRequest`'s catch re-categorizes that `ApiError`
— which has no `response` and whose message lacks the substring
"timeout" — as `NETWORK_ERROR`; the exhausted read therefore satisfies
the catch block's Network/Timeout guard and returns the cached payload
annotated `_cached = true` instead of propagating the Server error, and
a 400-exhausted `getSavedItems` falls back the same way: the claim's
propagate-on-other-kinds behaviour (spec P6) is unreachable. -/
theorem claim_C2_server_exhaustion_falls_back :
    (categorizeError "t" err503Input).error = "ServerError" ∧
    (interceptedFailure "t" err503Input).code = "NETWORK_ERROR" ∧
    searchItems true roomyCacheConfig DEFAULT_RETRY_CONFIG 100 "t" "q" 20 searchStore
      (fun _ => AttemptResult.fail err503Input) =
      (.ok (JsData.payload 7, true), searchStore) ∧
    (interceptedFailure "t" err400Input).code = "NETWORK_ERROR" ∧
    getSavedItems true roomyCacheConfig DEFAULT_RETRY_CONFIG 100 "t" savedStore
      (fun _ => AttemptResult.fail err400Input) =
      (.ok (JsData.payload 9, true), savedStore) := by
  refine ⟨by decide, by decide, ?_, by decide, ?_⟩ <;> rfl


/-! ### Claim C9 -/

/-- C9: invoking `retry` when not permitted — no error set, a
non-retryable error, or `retryCount` already at 3 — leaves the state
unchanged and never invokes the thunk; when permitted, it increments
`retryCount`, marks the retrying state, and on the thunk's failure
returns to the error state with the new error while preserving the
incremented `retryCount` (on success it clears the error). -/
theorem claim_C9_retry_state (s : ErrorState) (now : Int) (outcome : Option ApiError) :
    ((s.error = none ∨ (∃ e, s.error = some e ∧ e.retryable = false) ∨
      3 ≤ s.retryCount) →
      errRetry s now outcome = ⟨false, s, s⟩) ∧
    (∀ e e2, s.error = some e → e.retryable = true → s.retryCount < 3 →
      errRetry s now (some e2) =
        ⟨true,
         { s with isRetrying := true, retryCount := s.retryCount + 1
                  lastRetryTime := some now },
         { s with isRetrying := false, error := some e2
                  retryCount := s.retryCount + 1, lastRetryTime := some now }⟩) ∧
    (∀ e, s.error = some e → e.retryable = true → s.retryCount < 3 →
      errRetry s now none =
        ⟨true,
         { s with isRetrying := true, retryCount := s.retryCount + 1
                  lastRetryTime := some now },
         clearedErrorState⟩) := by
  refine ⟨?_, ?_, ?_⟩
  · intro h
    rcases h with h | ⟨e, he, hr⟩ | h
    · simp [errRetry, h]
    · simp [errRetry, he, hr]
    · simp [errRetry, show ¬ s.retryCount < 3 by omega]
  · intro e e2 he hr hc
    simp [errRetry, he, hr, hc]
  · intro e he hr hc
    simp [errRetry, he, hr, hc]

/-- Witness for C9: a 4th `retry` after 3 prior failed retries of a
retryable (network) error is a no-op, and a permitted retry that fails
with a 503 increments `retryCount` to 1 and stores the new error. -/
theorem claim_C9_retry_state_witness :
    errRetry ⟨true, some (categorizeError "t" errNetworkInput), 3, none, false⟩ 0
        (some (categorizeError "t" err503Input)) =
      ⟨false, ⟨true, some (categorizeError "t" errNetworkInput), 3, none, false⟩,
        ⟨true, some (categorizeError "t" errNetworkInput), 3, none, false⟩⟩ ∧
    (errRetry ⟨true, some (categorizeError "t" errNetworkInput), 0, none, false⟩ 5
        (some (categorizeError "t" err503Input))).final.retryCount = 1 ∧
    (errRetry ⟨true, some (categorizeError "t" errNetworkInput), 0, none, false⟩ 5
        (some (categorizeError "t" err503Input))).final.error =
      some (categorizeError "t" err503Input) := by
  have h0 := (claim_C9_retry_state
    ⟨true, some (categorizeError "t" errNetworkInput), 3, none, false⟩ 0
    (some (categorizeError "t" err503Input))).1
    (Or.inr (Or.inr (by decide)))
  have h1 := (claim_C9_retry_state
    ⟨true, some (categorizeError "t" errNetworkInput), 0, none, false⟩ 5
    (some (categorizeError "t" err503Input))).2.1
    (categorizeError "t" errNetworkInput) (categorizeError "t" err503Input)
    rfl (by decide) (by decide)
  exact ⟨h0, by rw [h1], by rw [h1]⟩

end FlipLens
